import Mathlib

/-!
A shallow embedding of the InterviewIQ repository (a Next.js / Genkit web
application) and proofs about its AI-flow and form-validation logic.

The embedding covers:
* the three Genkit flows (`analyzeCandidateResponseFlow`,
  `generatePostInterviewInsightsFlow`, `generateJobDetailsFlow`); each flow is
  modelled as a pure function of its input together with the structured value
  the model returned for the rendered prompt (`none` when the model produced
  no output).  The TypeScript non-null assertion `output!` performs no runtime
  check, so a flow whose body is `return output!` is modelled as returning the
  possibly-absent model output unchanged.
* the Handlebars prompt template of the insights flow, rendered to a literal
  string (standalone block-helper lines are stripped, as Handlebars does).
* the zod form schemas of the two client components and the submit /
  role-selection state machine of the `ResponseAnalysis` component.

String lengths are code-point counts (`String.length`); the repository only
ever compares lengths of plain ASCII text, where this agrees with the
JavaScript `.length` used by zod.
-/

namespace InterviewIQ

/-- Input of the analyze-candidate-response flow
(`AnalyzeCandidateResponseInputSchema` in
`src/ai/flows/analyze-candidate-response.ts`). -/
structure AnalyzeCandidateResponseInput where
  candidateResponse : String
  jobDescription : String
  keywords : String
deriving DecidableEq

/-- Output of the analyze-candidate-response flow
(`AnalyzeCandidateResponseOutputSchema`): four required string fields. -/
structure AnalyzeCandidateResponseOutput where
  sentiment : String
  clarity : String
  keywordRelevance : String
  overallAssessment : String
deriving DecidableEq

/-- The flow body of `analyzeCandidateResponseFlow` is
`const out = await prompt(input); return out!;` — the non-null assertion is a
no-op at run time, so the flow returns the model output unchanged, `none`
included. -/
def analyzeCandidateResponseFlow (_input : AnalyzeCandidateResponseInput)
    (output : Option AnalyzeCandidateResponseOutput) :
    Option AnalyzeCandidateResponseOutput :=
  output

/-- The exported wrapper `analyzeCandidateResponse` just calls the flow. -/
def analyzeCandidateResponse := analyzeCandidateResponseFlow

/-- Input of the insights flow (`PostInterviewInsightsInputSchema`). -/
structure PostInterviewInsightsInput where
  candidateResponses : List String
  jobDescription : String
deriving DecidableEq

/-- One entry of the `skillAssessment` array of the insights output schema. -/
structure SkillAssessmentEntry where
  skill : String
  assessment : String
deriving DecidableEq

/-- One entry of the `comparisonPoints` array of the insights output schema. -/
structure ComparisonPoint where
  metric : String
  value : String
deriving DecidableEq

/-- The raw structured value the model returned for the insights prompt,
before the flow normalizes it: the whole object can be absent and the flow
additionally guards every field with `?.` / `??`, so each field is modelled
as possibly absent. -/
structure RawInsightsOutput where
  overallSummary : Option String
  strengths : Option (List String)
  weaknesses : Option (List String)
  skillAssessment : Option (List SkillAssessmentEntry)
  comparisonPoints : Option (List ComparisonPoint)
deriving DecidableEq

/-- Normalized output of the insights flow (`PostInterviewInsightsOutputSchema`). -/
structure PostInterviewInsightsOutput where
  overallSummary : String
  strengths : List String
  weaknesses : List String
  skillAssessment : List SkillAssessmentEntry
  comparisonPoints : List ComparisonPoint
deriving DecidableEq

/-- Body of `generatePostInterviewInsightsFlow`: each field of the result is
`output?.field ?? default`, with `"No summary generated."` as the string
default and `[]` as the default of each array field. -/
def generatePostInterviewInsightsFlow (_input : PostInterviewInsightsInput)
    (output : Option RawInsightsOutput) : PostInterviewInsightsOutput :=
  { overallSummary := (output.bind RawInsightsOutput.overallSummary).getD "No summary generated."
    strengths := (output.bind RawInsightsOutput.strengths).getD []
    weaknesses := (output.bind RawInsightsOutput.weaknesses).getD []
    skillAssessment := (output.bind RawInsightsOutput.skillAssessment).getD []
    comparisonPoints := (output.bind RawInsightsOutput.comparisonPoints).getD [] }

/-- The exported wrapper `generatePostInterviewInsights` just calls the flow. -/
def generatePostInterviewInsights := generatePostInterviewInsightsFlow

/-- Input of the job-details flow (`GenerateJobDetailsInputSchema`). -/
structure GenerateJobDetailsInput where
  jobRole : String
deriving DecidableEq

/-- Output of the job-details flow (`GenerateJobDetailsOutputSchema`). -/
structure GenerateJobDetailsOutput where
  jobDescription : String
  keywords : String
deriving DecidableEq

/-- The flow body of `generateJobDetailsFlow` is
`const out = await prompt(input); return out!;` — like the analyze flow it
returns the model output unchanged and fills in no defaults. -/
def generateJobDetailsFlow (_input : GenerateJobDetailsInput)
    (output : Option GenerateJobDetailsOutput) : Option GenerateJobDetailsOutput :=
  output

/-- The exported wrapper `generateJobDetails` just calls the flow. -/
def generateJobDetails := generateJobDetailsFlow

/-- Rendering of the `postInterviewInsightsPrompt` Handlebars template: the
fixed text of the template with `jobDescription` substituted verbatim and the
each-block emitting one line per candidate response.  The standalone
block-helper lines of the each-block are stripped, as Handlebars does, so
every response renders as two spaces, a dash, a space, the response, then a
newline. -/
def postInterviewInsightsPrompt (input : PostInterviewInsightsInput) : String :=
  "You are an expert Talent Acquisition Analyst AI. Your goal is to provide a hiring manager with structured, actionable insights about a candidate after an interview, based on their responses and the job description.\n\n  Job Description:\n  "
    ++ input.jobDescription
    ++ "\n\n  Candidate Responses:\n"
    ++ String.join (input.candidateResponses.map (fun r => "  - " ++ r ++ "\n"))
    ++ "\n  Please analyze the provided information and generate the following structured output:\n\n  1.  **Overall Summary:** A concise (2-3 sentences) summary of the candidate's suitability based on the interview.\n  2.  **Strengths:** List 3-5 key strengths observed.\n  3.  **Weaknesses:** List 2-3 potential weaknesses or areas needing further exploration.\n  4.  **Skill Assessment:** Identify 3-5 key skills (from the job description or responses) and provide a brief assessment for each based *only* on the candidate's responses.\n  5.  **Comparison Points:** Provide 3-5 specific, comparable metrics or points (objective or subjective) that would be useful for comparing this candidate against others for this role.\n\n  Ensure your output strictly adheres to the defined output schema. Be concise and focus on information derived directly from the provided context.\n  "

/-- `beginsWith pat l` is true when `pat` is an initial segment of `l`. -/
def beginsWith : List Char → List Char → Bool
  | [], _ => true
  | _ :: _, [] => false
  | p :: ps, c :: cs => p == c && beginsWith ps cs

/-- Number of (possibly overlapping) occurrences of `pat` at positions of `l`. -/
def countOcc (pat : List Char) : List Char → Nat
  | [] => 0
  | c :: cs => (if beginsWith pat (c :: cs) then 1 else 0) + countOcc pat cs

/-- Number of occurrences of the pattern string `pat` inside `s`. -/
def countSub (s pat : String) : Nat :=
  countOcc pat.data s.data

/-- Index of the first occurrence of `pat` in `l`, if any. -/
def firstOccIdx (pat : List Char) : List Char → Option Nat
  | [] => none
  | c :: cs =>
      if beginsWith pat (c :: cs) then some 0
      else (firstOccIdx pat cs).map (fun n => n + 1)

/-- True when both patterns occur in `s` and the first occurrence of `pat1`
is strictly before the first occurrence of `pat2`. -/
def occursBefore (s pat1 pat2 : String) : Bool :=
  match firstOccIdx pat1.data s.data, firstOccIdx pat2.data s.data with
  | some i, some j => decide (i < j)
  | _, _ => false

/-- The concrete insights request of the C5 scenario. -/
def demoInsightsInput : PostInterviewInsightsInput :=
  { candidateResponses := ["A", "B"], jobDescription := "X" }

/-- Claim C1: for every insights request with at least one candidate response,
each of the four sequence fields of the flow result equals the model value
when the model supplies one and is empty when it does not, and
`overallSummary` equals the model value when supplied and the exact string
"No summary generated." when absent. -/
theorem insights_flow_defaults (input : PostInterviewInsightsInput)
    (_h : 1 ≤ input.candidateResponses.length) (out : Option RawInsightsOutput) :
    ((out.bind RawInsightsOutput.overallSummary = none →
        (generatePostInterviewInsights input out).overallSummary = "No summary generated.") ∧
      ∀ v, out.bind RawInsightsOutput.overallSummary = some v →
        (generatePostInterviewInsights input out).overallSummary = v) ∧
    ((out.bind RawInsightsOutput.strengths = none →
        (generatePostInterviewInsights input out).strengths = []) ∧
      ∀ v, out.bind RawInsightsOutput.strengths = some v →
        (generatePostInterviewInsights input out).strengths = v) ∧
    ((out.bind RawInsightsOutput.weaknesses = none →
        (generatePostInterviewInsights input out).weaknesses = []) ∧
      ∀ v, out.bind RawInsightsOutput.weaknesses = some v →
        (generatePostInterviewInsights input out).weaknesses = v) ∧
    ((out.bind RawInsightsOutput.skillAssessment = none →
        (generatePostInterviewInsights input out).skillAssessment = []) ∧
      ∀ v, out.bind RawInsightsOutput.skillAssessment = some v →
        (generatePostInterviewInsights input out).skillAssessment = v) ∧
    ((out.bind RawInsightsOutput.comparisonPoints = none →
        (generatePostInterviewInsights input out).comparisonPoints = []) ∧
      ∀ v, out.bind RawInsightsOutput.comparisonPoints = some v →
        (generatePostInterviewInsights input out).comparisonPoints = v) := by
  refine ⟨⟨?_, ?_⟩, ⟨?_, ?_⟩, ⟨?_, ?_⟩, ⟨?_, ?_⟩, ⟨?_, ?_⟩⟩ <;>
    first
      | (intro hv
         simp [generatePostInterviewInsights, generatePostInterviewInsightsFlow, hv])
      | (intro v hv
         simp [generatePostInterviewInsights, generatePostInterviewInsightsFlow, hv])

/-- Concrete run of `insights_flow_defaults`: a request with one response and
a model that produced no output yields the placeholder summary and empty
sequences. -/
theorem insights_flow_defaults_witness :
    (generatePostInterviewInsights
        { candidateResponses := ["I built a payment service handling 10k requests per second"]
          jobDescription := "Backend role needing Go and gRPC experience" }
        none).overallSummary = "No summary generated." ∧
    (generatePostInterviewInsights
        { candidateResponses := ["I built a payment service handling 10k requests per second"]
          jobDescription := "Backend role needing Go and gRPC experience" }
        none).strengths = [] :=
  ⟨(insights_flow_defaults
      { candidateResponses := ["I built a payment service handling 10k requests per second"]
        jobDescription := "Backend role needing Go and gRPC experience" }
      (by decide) none).1.1 rfl,
    (insights_flow_defaults
      { candidateResponses := ["I built a payment service handling 10k requests per second"]
        jobDescription := "Backend role needing Go and gRPC experience" }
      (by decide) none).2.1.1 rfl⟩

/-- Claim C2 counterexample: for a valid request (all three form minimum
lengths met) and a model that produced no output at all, the analyze flow
returns the absent output unchanged — neither a result with all four fields
populated nor a raised failure — because the TypeScript non-null assertion in
`return output!` performs no runtime check. -/
theorem analyze_flow_no_output_not_raised :
    analyzeCandidateResponseFlow
      { candidateResponse := "I led a team of five engineers."
        jobDescription := "Backend role needing Go and gRPC experience in production."
        keywords := "go, grpc, backend" } none = none :=
  rfl

/-- Claim C2 (amended): the analyze flow forwards the model output unchanged:
a schema-conforming output is returned as-is with all four string fields
populated, and an absent output is returned as absent rather than raising. -/
theorem analyze_flow_returns_model_output :
    ∀ (input : AnalyzeCandidateResponseInput) (o : AnalyzeCandidateResponseOutput),
      analyzeCandidateResponseFlow input (some o) = some o ∧
      analyzeCandidateResponseFlow input none = none :=
  fun _ _ => ⟨rfl, rfl⟩

/-- Claim C3 counterexample: when the model produced no output, the
job-details flow returns the absent value unchanged — no fallback phrase is
filled in for `jobDescription` or `keywords` (`return output!` applies no
normalization). -/
theorem jobdetails_flow_no_fallback :
    generateJobDetailsFlow { jobRole := "Software Engineer" } none = none :=
  rfl

/-- Claim C3 (amended): the job-details flow returns the model output
unchanged: a conforming output is returned with both fields taken from the
model, and an absent output is passed through as absent; no defaults are
applied (only the insights flow normalizes). -/
theorem jobdetails_flow_returns_model_output :
    ∀ (input : GenerateJobDetailsInput) (o : GenerateJobDetailsOutput),
      generateJobDetailsFlow input (some o) = some o ∧
      generateJobDetailsFlow input none = none :=
  fun _ _ => ⟨rfl, rfl⟩

set_option maxRecDepth 100000 in
/-- Claim C5 counterexample: in the prompt rendered for
`jobDescription = "X"`, `candidateResponses = ["A", "B"]`, the literal
substring "A" does not occur exactly once: the fixed template text itself
contains the letter A (for example in "Talent Acquisition Analyst AI"). -/
theorem insights_prompt_letter_a_not_unique :
    countSub (postInterviewInsightsPrompt demoInsightsInput) "A" ≠ 1 := by
  decide

set_option maxRecDepth 100000 in
/-- Claim C5 (amended): prompt rendering is a pure function of the input
(hence deterministic), and for `jobDescription = "X"`,
`candidateResponses = ["A", "B"]` the rendered prompt contains "X" exactly
once and the rendered response items "- A" and "- B" exactly once each, with
the "A" item before the "B" item (input order); the bare one-letter
substrings "A" and "B" occur more than once because the fixed template text
contains those letters. -/
theorem insights_prompt_render_counts :
    countSub (postInterviewInsightsPrompt demoInsightsInput) "X" = 1 ∧
    countSub (postInterviewInsightsPrompt demoInsightsInput) "- A" = 1 ∧
    countSub (postInterviewInsightsPrompt demoInsightsInput) "- B" = 1 ∧
    occursBefore (postInterviewInsightsPrompt demoInsightsInput) "- A" "- B" = true := by
  refine ⟨by decide, by decide, by decide, by decide⟩

/-- The form values of the `ResponseAnalysis` component (`formSchema` in
`response-analysis.tsx`).  `jobRole` is optional in the zod schema, carries no
constraint, and is initialized to the empty string by the form defaults. -/
structure FormValues where
  jobRole : String
  candidateResponse : String
  jobDescription : String
  keywords : String
deriving DecidableEq

/-- Field errors produced by the zod `formSchema` of `ResponseAnalysis`:
`candidateResponse` needs at least 10 characters, `jobDescription` at least
20 and `keywords` at least 3, each failure carrying its own message. -/
def responseAnalysisFieldErrors (d : FormValues) : List (String × String) :=
  (if d.candidateResponse.length < 10 then
      [("candidateResponse", "Response must be at least 10 characters.")] else []) ++
  (if d.jobDescription.length < 20 then
      [("jobDescription", "Job description must be at least 20 characters.")] else []) ++
  (if d.keywords.length < 3 then
      [("keywords", "Please provide relevant keywords.")] else [])

/-- Claim C4: validation rejects a `candidateResponse` shorter than 10
characters, a `jobDescription` shorter than 20 and a `keywords` value shorter
than 3, each with its own distinct field-specific message, and accepts inputs
meeting all three minimum lengths. -/
theorem response_form_min_length_validation (d : FormValues) :
    (("Response must be at least 10 characters." : String) ≠
        "Job description must be at least 20 characters." ∧
      ("Response must be at least 10 characters." : String) ≠
        "Please provide relevant keywords." ∧
      ("Job description must be at least 20 characters." : String) ≠
        "Please provide relevant keywords.") ∧
    (d.candidateResponse.length < 10 →
      ("candidateResponse", "Response must be at least 10 characters.") ∈
        responseAnalysisFieldErrors d) ∧
    (d.jobDescription.length < 20 →
      ("jobDescription", "Job description must be at least 20 characters.") ∈
        responseAnalysisFieldErrors d) ∧
    (d.keywords.length < 3 →
      ("keywords", "Please provide relevant keywords.") ∈
        responseAnalysisFieldErrors d) ∧
    (10 ≤ d.candidateResponse.length → 20 ≤ d.jobDescription.length →
      3 ≤ d.keywords.length → responseAnalysisFieldErrors d = []) := by
  refine ⟨⟨by decide, by decide, by decide⟩, ?_, ?_, ?_, ?_⟩
  · intro hc
    simp [responseAnalysisFieldErrors, hc]
  · intro hj
    simp [responseAnalysisFieldErrors, hj]
  · intro hk
    simp [responseAnalysisFieldErrors, hk]
  · intro h1 h2 h3
    unfold responseAnalysisFieldErrors
    rw [if_neg (by omega), if_neg (by omega), if_neg (by omega)]
    rfl

/-- Concrete run of `response_form_min_length_validation`: the empty form is
rejected with the candidate-response message, and a form meeting all three
minimum lengths produces no field errors. -/
theorem response_form_min_length_validation_witness :
    ("candidateResponse", "Response must be at least 10 characters.") ∈
      responseAnalysisFieldErrors
        { jobRole := "", candidateResponse := "", jobDescription := "", keywords := "" } ∧
    responseAnalysisFieldErrors
      { jobRole := ""
        candidateResponse := "I led a team of five engineers."
        jobDescription := "Backend role needing Go and gRPC experience in production."
        keywords := "go, grpc, backend" } = [] :=
  ⟨(response_form_min_length_validation
      { jobRole := "", candidateResponse := "", jobDescription := "", keywords := "" }).2.1
      (by decide),
    (response_form_min_length_validation
      { jobRole := ""
        candidateResponse := "I led a team of five engineers."
        jobDescription := "Backend role needing Go and gRPC experience in production."
        keywords := "go, grpc, backend" }).2.2.2.2 (by decide) (by decide) (by decide)⟩

/-- One entry of the `candidateResponses` field array of the
`PostInterviewInsights` form: a record with a single `value` string. -/
structure ResponseEntry where
  value : String
deriving DecidableEq

/-- The form values of the `PostInterviewInsights` component (`formSchema` in
`post-interview-insights.tsx`). -/
structure InsightsFormData where
  jobDescription : String
  candidateResponses : List ResponseEntry
deriving DecidableEq

/-- Per-entry errors of the `candidateResponses` array: each entry whose
`value` is shorter than 10 characters is reported under its indexed path. -/
def insightsEntryErrors : Nat → List ResponseEntry → List (String × String)
  | _, [] => []
  | i, r :: rs =>
      (if r.value.length < 10 then
        [("candidateResponses." ++ toString i ++ ".value",
          "Response must be at least 10 characters.")]
      else []) ++ insightsEntryErrors (i + 1) rs

/-- Errors of the `candidateResponses` field of the insights form: the zod
array carries `.min(1)` with its own message, and each entry value carries
`.min(10)`. -/
def insightsResponsesErrors (rs : List ResponseEntry) : List (String × String) :=
  (if rs.length < 1 then
      [("candidateResponses", "At least one candidate response is required.")] else []) ++
  insightsEntryErrors 0 rs

/-- All field errors of the insights form: `jobDescription` needs at least 20
characters; the rest come from the `candidateResponses` rules. -/
def insightsFieldErrors (d : InsightsFormData) : List (String × String) :=
  (if d.jobDescription.length < 20 then
      [("jobDescription", "Job description must be at least 20 characters.")] else []) ++
  insightsResponsesErrors d.candidateResponses

/-- The `formattedInput` built in `onSubmit` of `PostInterviewInsights`: the
entry records are flattened to their `value` strings. -/
def insightsFormattedInput (d : InsightsFormData) : PostInterviewInsightsInput :=
  { candidateResponses := d.candidateResponses.map ResponseEntry.value
    jobDescription := d.jobDescription }

/-- `form.handleSubmit(onSubmit)` of `PostInterviewInsights`: when validation
fails, no call to `generatePostInterviewInsights` is made; when it passes,
the call is issued with the formatted input. -/
def insightsSubmit (d : InsightsFormData) : Option PostInterviewInsightsInput :=
  if insightsFieldErrors d = [] then some (insightsFormattedInput d) else none

/-- Entry errors vanish when every entry meets the minimum length. -/
theorem insightsEntryErrors_eq_nil (i : Nat) (rs : List ResponseEntry)
    (h : ∀ r ∈ rs, 10 ≤ r.value.length) : insightsEntryErrors i rs = [] := by
  induction rs generalizing i with
  | nil => rfl
  | cons r rs ih =>
      have h1 : 10 ≤ r.value.length := h r (by simp)
      have h2 : ∀ x ∈ rs, 10 ≤ x.value.length := fun x hx => h x (by simp [hx])
      unfold insightsEntryErrors
      rw [if_neg (by omega)]
      simpa using ih (i + 1) h2

/-- Claim C9: a request whose `candidateResponses` is empty is rejected by
the insights form validation (with the array-level message) and
`generatePostInterviewInsights` is not invoked; with one or more responses,
each at least 10 characters, the `candidateResponses` rules report no error,
and with a valid `jobDescription` as well the call is issued. -/
theorem insights_form_requires_response (d : InsightsFormData) :
    (d.candidateResponses = [] →
      ("candidateResponses", "At least one candidate response is required.") ∈
          insightsFieldErrors d ∧
        insightsSubmit d = none) ∧
    (d.candidateResponses ≠ [] →
      (∀ r ∈ d.candidateResponses, 10 ≤ r.value.length) →
      insightsResponsesErrors d.candidateResponses = [] ∧
        (20 ≤ d.jobDescription.length →
          insightsSubmit d = some (insightsFormattedInput d))) := by
  constructor
  · intro hempty
    have hmem : ("candidateResponses", "At least one candidate response is required.") ∈
        insightsFieldErrors d := by
      simp [insightsFieldErrors, insightsResponsesErrors, insightsEntryErrors, hempty]
    have hne : insightsFieldErrors d ≠ [] := by
      intro hnil
      rw [hnil] at hmem
      exact absurd hmem (List.not_mem_nil _)
    exact ⟨hmem, by simp [insightsSubmit, hne]⟩
  · intro hne hlen
    have hentry := insightsEntryErrors_eq_nil 0 d.candidateResponses hlen
    have hlen1 : ¬ d.candidateResponses.length < 1 := by
      cases hrs : d.candidateResponses with
      | nil => exact absurd hrs hne
      | cons r rs => simp
    have hresp : insightsResponsesErrors d.candidateResponses = [] := by
      unfold insightsResponsesErrors
      rw [if_neg hlen1, hentry]
      rfl
    refine ⟨hresp, fun hjd => ?_⟩
    have hall : insightsFieldErrors d = [] := by
      unfold insightsFieldErrors
      rw [if_neg (by omega), hresp]
      rfl
    simp [insightsSubmit, hall]

/-- Concrete run of `insights_form_requires_response`: the empty response
list is rejected and no call is issued, while a single sufficiently long
response (with a valid job description) passes and issues the call. -/
theorem insights_form_requires_response_witness :
    ("candidateResponses", "At least one candidate response is required.") ∈
      insightsFieldErrors
        { jobDescription := "Backend role needing Go and gRPC experience"
          candidateResponses := [] } ∧
    insightsSubmit
      { jobDescription := "Backend role needing Go and gRPC experience"
        candidateResponses := [] } = none ∧
    insightsResponsesErrors [{ value := "I built a payment service handling 10k" }] = [] ∧
    insightsSubmit
      { jobDescription := "Backend role needing Go and gRPC experience"
        candidateResponses := [{ value := "I built a payment service handling 10k" }] } =
      some (insightsFormattedInput
        { jobDescription := "Backend role needing Go and gRPC experience"
          candidateResponses := [{ value := "I built a payment service handling 10k" }] }) := by
  have hempty := (insights_form_requires_response
    { jobDescription := "Backend role needing Go and gRPC experience"
      candidateResponses := [] }).1 rfl
  have hgood := (insights_form_requires_response
    { jobDescription := "Backend role needing Go and gRPC experience"
      candidateResponses := [{ value := "I built a payment service handling 10k" }] }).2
    (by decide) (by decide)
  exact ⟨hempty.1, hempty.2, hgood.1, hgood.2 (by decide)⟩

/-- The optional candidate video file held in the `videoFile` state of the
`ResponseAnalysis` component. -/
structure VideoFile where
  name : String
  size : Nat
  mimeType : String
deriving DecidableEq

/-- The request built by `onSubmit` of `ResponseAnalysis`: exactly the three
schema fields `candidateResponse`, `jobDescription` and `keywords` are passed
to `analyzeCandidateResponse`; the `jobRole` value and the uploaded video
file state are not part of the request (the component notes that the video
file is not sent for analysis). -/
def onSubmitAnalysisRequest (data : FormValues) (_videoFile : Option VideoFile) :
    AnalyzeCandidateResponseInput :=
  { candidateResponse := data.candidateResponse
    jobDescription := data.jobDescription
    keywords := data.keywords }

/-- Claim C10: the analysis request consists of exactly the three text
fields, so two submissions agreeing on `candidateResponse`, `jobDescription`
and `keywords` but differing in `jobRole` or in the uploaded video file build
identical requests (noninterference). -/
theorem analysis_request_ignores_role_and_video
    (d1 d2 : FormValues) (v1 v2 : Option VideoFile)
    (hc : d1.candidateResponse = d2.candidateResponse)
    (hj : d1.jobDescription = d2.jobDescription)
    (hk : d1.keywords = d2.keywords) :
    onSubmitAnalysisRequest d1 v1 =
      { candidateResponse := d1.candidateResponse
        jobDescription := d1.jobDescription
        keywords := d1.keywords } ∧
    onSubmitAnalysisRequest d1 v1 = onSubmitAnalysisRequest d2 v2 := by
  constructor
  · rfl
  · simp [onSubmitAnalysisRequest, hc, hj, hk]

/-- Concrete run of `analysis_request_ignores_role_and_video`: two
submissions with different roles and video files but the same three text
fields build the same request. -/
theorem analysis_request_ignores_role_and_video_witness :
    onSubmitAnalysisRequest
        { jobRole := "Software Engineer"
          candidateResponse := "I led a team of five engineers."
          jobDescription := "Backend role needing Go and gRPC experience in production."
          keywords := "go, grpc, backend" } none =
      onSubmitAnalysisRequest
        { jobRole := "Data Scientist"
          candidateResponse := "I led a team of five engineers."
          jobDescription := "Backend role needing Go and gRPC experience in production."
          keywords := "go, grpc, backend" }
        (some { name := "clip.mp4", size := 1024, mimeType := "video/mp4" }) :=
  (analysis_request_ignores_role_and_video
    { jobRole := "Software Engineer"
      candidateResponse := "I led a team of five engineers."
      jobDescription := "Backend role needing Go and gRPC experience in production."
      keywords := "go, grpc, backend" }
    { jobRole := "Data Scientist"
      candidateResponse := "I led a team of five engineers."
      jobDescription := "Backend role needing Go and gRPC experience in production."
      keywords := "go, grpc, backend" }
    none
    (some { name := "clip.mp4", size := 1024, mimeType := "video/mp4" })
    rfl rfl rfl).2

/-- A model call issued by a step of the `ResponseAnalysis` component. -/
inductive IssuedCall where
  | generateDetails (req : GenerateJobDetailsInput)
  | analyze (req : AnalyzeCandidateResponseInput)
deriving DecidableEq

/-- State of one `ResponseAnalysis` form instance: the form values, the
`analysisResult`, `videoFile` and `selectedJobRole` React states, the
reported field errors, and the number of outstanding calls of each kind
(`pendingDetails` for `isGeneratingDetails`, `pendingAnalysis` for
`isAnalyzing`; the transitions only ever toggle them between 0 and 1, which
claim C8 is about, so they are counted rather than assumed boolean). -/
structure ComponentState where
  values : FormValues
  selectedJobRole : String
  analysisResult : Option AnalyzeCandidateResponseOutput
  videoFile : Option VideoFile
  fieldErrors : List (String × String)
  pendingDetails : Nat
  pendingAnalysis : Nat
deriving DecidableEq

/-- `isLoading = isAnalyzing || isGeneratingDetails` of the component. -/
def ComponentState.isLoading (s : ComponentState) : Bool :=
  s.pendingAnalysis != 0 || s.pendingDetails != 0

/-- Events a form instance can process: the role `Select` firing, a
job-details call settling (with a result on success, `none` on failure), the
form submitting, an analysis call settling, and the video picker changing. -/
inductive Event where
  | selectRole (role : String)
  | detailsSettled (outcome : Option GenerateJobDetailsOutput)
  | submitForm
  | analysisSettled (outcome : Option AnalyzeCandidateResponseOutput)
  | chooseVideo (file : Option VideoFile)
deriving DecidableEq

/-- Initial state: `useState`/`useForm` defaults of the component. -/
def initState : ComponentState :=
  { values := { jobRole := "", candidateResponse := "", jobDescription := "", keywords := "" }
    selectedJobRole := ""
    analysisResult := none
    videoFile := none
    fieldErrors := []
    pendingDetails := 0
    pendingAnalysis := 0 }

/-- One step of the component.  `none` means the event cannot fire in `s`
(its triggering control is disabled, or there is no such call in flight).

* `selectRole`: the `Select` is disabled while `isLoading`; `onValueChange`
  fires only when the value changes.  `handleJobRoleChange` stores the role,
  and the effect on `selectedJobRole` — for a non-empty role — first clears
  `jobDescription`, `keywords` and the analysis result, then issues the
  `generateJobDetails` call.
* `detailsSettled`: on success the generated description and keywords are
  written into the form; on failure only a toast is shown.  Either way the
  transition ends, re-enabling the controls.
* `submitForm`: the submit button is disabled while `isLoading`;
  `form.handleSubmit` validates against the zod schema, reports field errors
  and calls `onSubmit` (which clears the old result and issues the
  `analyzeCandidateResponse` call) only when validation passes.
* `analysisSettled`: on success the result is stored; on failure only a
  toast is shown.
* `chooseVideo`: the file input is disabled while `isLoading`; the chosen
  file is stored and never sent anywhere. -/
def step (s : ComponentState) : Event → Option (ComponentState × List IssuedCall)
  | Event.selectRole role =>
      if s.isLoading then none
      else if role = s.selectedJobRole then none
      else
        let s1 := { s with
          selectedJobRole := role
          values := { s.values with jobRole := role } }
        if role = "" then some (s1, [])
        else
          some ({ s1 with
              values := { s1.values with jobDescription := "", keywords := "" }
              analysisResult := none
              pendingDetails := s.pendingDetails + 1 },
            [IssuedCall.generateDetails { jobRole := role }])
  | Event.detailsSettled outcome =>
      if s.pendingDetails = 0 then none
      else
        let s1 := { s with pendingDetails := s.pendingDetails - 1 }
        match outcome with
        | some r =>
            some ({ s1 with
                values := { s1.values with
                  jobDescription := r.jobDescription
                  keywords := r.keywords } }, [])
        | none => some (s1, [])
  | Event.submitForm =>
      if s.isLoading then none
      else
        if responseAnalysisFieldErrors s.values = [] then
          some ({ s with
              fieldErrors := []
              analysisResult := none
              pendingAnalysis := s.pendingAnalysis + 1 },
            [IssuedCall.analyze (onSubmitAnalysisRequest s.values s.videoFile)])
        else
          some ({ s with fieldErrors := responseAnalysisFieldErrors s.values }, [])
  | Event.analysisSettled outcome =>
      if s.pendingAnalysis = 0 then none
      else
        let s1 := { s with pendingAnalysis := s.pendingAnalysis - 1 }
        match outcome with
        | some r => some ({ s1 with analysisResult := some r }, [])
        | none => some (s1, [])
  | Event.chooseVideo file =>
      if s.isLoading then none
      else some ({ s with videoFile := file }, [])

/-- States of the component reachable from the initial state. -/
inductive Reachable : ComponentState → Prop where
  | init : Reachable initState
  | next (s : ComponentState) (e : Event) (s2 : ComponentState) (calls : List IssuedCall) :
      Reachable s → step s e = some (s2, calls) → Reachable s2

/-- Claim C6: whenever a non-empty role is selected, the post-transition
state — the state in which the `generateJobDetails` call for that role is
issued and that persists while it is outstanding — has `jobDescription` and
`keywords` cleared and the analysis result removed, and the issued call is
exactly the one for the selected role. -/
theorem select_role_clears_before_generate_call
    (s : ComponentState) (role : String) (s2 : ComponentState) (calls : List IssuedCall)
    (hstep : step s (Event.selectRole role) = some (s2, calls)) (hrole : role ≠ "") :
    s2.values.jobDescription = "" ∧ s2.values.keywords = "" ∧ s2.analysisResult = none ∧
      calls = [IssuedCall.generateDetails { jobRole := role }] := by
  simp only [step] at hstep
  split at hstep
  · exact absurd hstep (by simp)
  · split at hstep
    · exact absurd hstep (by simp)
    · rcases Option.some.inj hstep with h
      cases h
      exact ⟨rfl, rfl, rfl, rfl⟩

/-- Concrete run of `select_role_clears_before_generate_call`: selecting
"Software Engineer" in the initial state. -/
theorem select_role_clears_before_generate_call_witness :
    ∃ s2 calls,
      step initState (Event.selectRole "Software Engineer") = some (s2, calls) ∧
      s2.values.jobDescription = "" ∧ s2.values.keywords = "" ∧ s2.analysisResult = none ∧
      calls = [IssuedCall.generateDetails { jobRole := "Software Engineer" }] := by
  refine ⟨_, _, rfl, ?_⟩
  exact select_role_clears_before_generate_call initState "Software Engineer" _ _ rfl
    (by decide)

/-- Claim C7: in every reachable state, no step issues an
`analyzeCandidateResponse` call while the form values violate the schema,
and a submission with invalid values reports exactly the per-field errors
and issues no call at all. -/
theorem no_analysis_call_when_form_invalid
    (s : ComponentState) (e : Event) (s2 : ComponentState) (calls : List IssuedCall)
    (_hr : Reachable s) (hstep : step s e = some (s2, calls)) :
    (∀ req, IssuedCall.analyze req ∈ calls → responseAnalysisFieldErrors s.values = []) ∧
    (e = Event.submitForm → responseAnalysisFieldErrors s.values ≠ [] →
      calls = [] ∧ s2.fieldErrors = responseAnalysisFieldErrors s.values) := by
  cases e with
  | selectRole role =>
      simp only [step] at hstep
      split at hstep
      · exact absurd hstep (by simp)
      · split at hstep
        · exact absurd hstep (by simp)
        · split at hstep <;>
          · rcases Option.some.inj hstep with h
            cases h
            exact ⟨by simp, by simp⟩
  | detailsSettled outcome =>
      simp only [step] at hstep
      split at hstep
      · exact absurd hstep (by simp)
      · cases outcome <;>
        · rcases Option.some.inj hstep with h
          cases h
          exact ⟨by simp, by simp⟩
  | submitForm =>
      simp only [step] at hstep
      split at hstep
      · exact absurd hstep (by simp)
      · split at hstep
        · rcases Option.some.inj hstep with h
          cases h
          refine ⟨fun req _ => by assumption, fun _ hne => absurd (by assumption) hne⟩
        · rcases Option.some.inj hstep with h
          cases h
          exact ⟨by simp, fun _ _ => ⟨rfl, rfl⟩⟩
  | analysisSettled outcome =>
      simp only [step] at hstep
      split at hstep
      · exact absurd hstep (by simp)
      · cases outcome <;>
        · rcases Option.some.inj hstep with h
          cases h
          exact ⟨by simp, by simp⟩
  | chooseVideo file =>
      simp only [step] at hstep
      split at hstep
      · exact absurd hstep (by simp)
      · rcases Option.some.inj hstep with h
        cases h
        exact ⟨by simp, by simp⟩

/-- Concrete run of `no_analysis_call_when_form_invalid`: submitting the
initial (empty, hence invalid) form reports the field errors and issues no
call. -/
theorem no_analysis_call_when_form_invalid_witness :
    ∃ s2 calls,
      step initState Event.submitForm = some (s2, calls) ∧
      calls = [] ∧ s2.fieldErrors = responseAnalysisFieldErrors initState.values := by
  refine ⟨_, _, rfl, ?_⟩
  exact (no_analysis_call_when_form_invalid initState Event.submitForm _ _
    Reachable.init rfl).2 rfl (by decide)

/-- In every reachable state, at most one job-details call and at most one
analysis call are outstanding. -/
theorem pending_calls_le_one (s : ComponentState) (h : Reachable s) :
    s.pendingDetails ≤ 1 ∧ s.pendingAnalysis ≤ 1 := by
  induction h with
  | init => exact ⟨by decide, by decide⟩
  | next s e s2 calls _hr hstep ih =>
      cases e with
      | selectRole role =>
          simp only [step] at hstep
          split at hstep
          · exact absurd hstep (by simp)
          · rename_i hload
            split at hstep
            · exact absurd hstep (by simp)
            · have hz : s.pendingAnalysis = 0 ∧ s.pendingDetails = 0 := by
                simpa [ComponentState.isLoading] using hload
              split at hstep <;>
              · rcases Option.some.inj hstep with h
                cases h
                simp [hz.1, hz.2]
      | detailsSettled outcome =>
          simp only [step] at hstep
          split at hstep
          · exact absurd hstep (by simp)
          · cases outcome <;>
            · rcases Option.some.inj hstep with h
              cases h
              refine ⟨?_, ih.2⟩
              show s.pendingDetails - 1 ≤ 1
              have := ih.1
              omega
      | submitForm =>
          simp only [step] at hstep
          split at hstep
          · exact absurd hstep (by simp)
          · rename_i hload
            have hz : s.pendingAnalysis = 0 ∧ s.pendingDetails = 0 := by
              simpa [ComponentState.isLoading] using hload
            split at hstep <;>
            · rcases Option.some.inj hstep with h
              cases h
              simp [hz.1, hz.2]
      | analysisSettled outcome =>
          simp only [step] at hstep
          split at hstep
          · exact absurd hstep (by simp)
          · cases outcome <;>
            · rcases Option.some.inj hstep with h
              cases h
              refine ⟨ih.1, ?_⟩
              show s.pendingAnalysis - 1 ≤ 1
              have := ih.2
              omega
      | chooseVideo file =>
          simp only [step] at hstep
          split at hstep
          · exact absurd hstep (by simp)
          · rcases Option.some.inj hstep with h
            cases h
            exact ih

/-- Claim C8: in every reachable state at most one call of each kind is
outstanding; the controls that trigger a new call (role selection, form
submission) can only fire when no call of either kind is in flight; and an
outstanding count only decreases — re-enabling the control — through the
corresponding settle event, which covers both success and failure. -/
theorem at_most_one_inflight_call (s : ComponentState) (h : Reachable s) :
    (s.pendingDetails ≤ 1 ∧ s.pendingAnalysis ≤ 1) ∧
    (∀ role s2 calls, step s (Event.selectRole role) = some (s2, calls) →
      s.pendingDetails = 0 ∧ s.pendingAnalysis = 0) ∧
    (∀ s2 calls, step s Event.submitForm = some (s2, calls) →
      s.pendingDetails = 0 ∧ s.pendingAnalysis = 0) ∧
    (∀ e s2 calls, step s e = some (s2, calls) →
      (s2.pendingDetails < s.pendingDetails → ∃ out, e = Event.detailsSettled out) ∧
      (s2.pendingAnalysis < s.pendingAnalysis → ∃ out, e = Event.analysisSettled out)) := by
  refine ⟨pending_calls_le_one s h, ?_, ?_, ?_⟩
  · intro role s2 calls hstep
    simp only [step] at hstep
    split at hstep
    · exact absurd hstep (by simp)
    · rename_i hload
      have hz : s.pendingAnalysis = 0 ∧ s.pendingDetails = 0 := by
        simpa [ComponentState.isLoading] using hload
      exact ⟨hz.2, hz.1⟩
  · intro s2 calls hstep
    simp only [step] at hstep
    split at hstep
    · exact absurd hstep (by simp)
    · rename_i hload
      have hz : s.pendingAnalysis = 0 ∧ s.pendingDetails = 0 := by
        simpa [ComponentState.isLoading] using hload
      exact ⟨hz.2, hz.1⟩
  · intro e s2 calls hstep
    cases e with
    | selectRole role =>
        simp only [step] at hstep
        split at hstep
        · exact absurd hstep (by simp)
        · split at hstep
          · exact absurd hstep (by simp)
          · split at hstep <;>
            · rcases Option.some.inj hstep with h
              cases h
              exact ⟨fun hlt => absurd hlt (by simp), fun hlt => absurd hlt (by simp)⟩
    | detailsSettled outcome =>
        simp only [step] at hstep
        split at hstep
        · exact absurd hstep (by simp)
        · cases outcome <;>
          · rcases Option.some.inj hstep with h
            cases h
            exact ⟨fun _ => ⟨_, rfl⟩, fun hlt => absurd hlt (by simp)⟩
    | submitForm =>
        simp only [step] at hstep
        split at hstep
        · exact absurd hstep (by simp)
        · split at hstep <;>
          · rcases Option.some.inj hstep with h
            cases h
            exact ⟨fun hlt => absurd hlt (by simp), fun hlt => absurd hlt (by simp)⟩
    | analysisSettled outcome =>
        simp only [step] at hstep
        split at hstep
        · exact absurd hstep (by simp)
        · cases outcome <;>
          · rcases Option.some.inj hstep with h
            cases h
            exact ⟨fun hlt => absurd hlt (by simp), fun _ => ⟨_, rfl⟩⟩
    | chooseVideo file =>
        simp only [step] at hstep
        split at hstep
        · exact absurd hstep (by simp)
        · rcases Option.some.inj hstep with h
          cases h
          exact ⟨fun hlt => absurd hlt (by simp), fun hlt => absurd hlt (by simp)⟩

/-- Concrete run of `at_most_one_inflight_call` at the initial state. -/
theorem at_most_one_inflight_call_witness :
    initState.pendingDetails ≤ 1 ∧ initState.pendingAnalysis ≤ 1 :=
  (at_most_one_inflight_call initState Reachable.init).1

end InterviewIQ
